import Mathlib

/-!
Verification of the media-intake and approval pipeline of the
`telethon_fastapi` repository, following a shallow embedding of
`src/app/models.py`, `src/app/crud.py`, `src/app/telethon_client.py`,
`src/app/api/media.py` and `src/app/api/channels.py`.

The catalog (table `media_files`) is embedded as a `List MediaFile`;
SQLAlchemy queries become list traversals, commits become the returned
list.  The Telegram client and the object store are external
capabilities and are embedded as function-valued environments
(`TgEnv`, `PullEnv`), never as catalog state.
-/

/-- One row of the `media_files` table (`src/app/models.py`, class `MediaFile`). -/
structure MediaFile where
  id : Nat
  message_id : Nat
  channel_username : String
  file_name : String
  file_type : String
  s3_key : Option String
  downloaded_at : Nat
  approved : Bool
deriving Repr, DecidableEq

/-- One row of the `channels` table (`src/app/models.py`, class `Channel`). -/
structure Channel where
  id : Nat
  username : String
  active : Bool
deriving Repr, DecidableEq

/-- Attachment descriptor: the `msg.file` object of a Telegram message. -/
structure TgFile where
  mime_type : Option String
  name : Option String
deriving Repr, DecidableEq

/-- A Telegram message as seen by the handlers: id plus optional attachment. -/
structure TgMessage where
  id : Nat
  file : Option TgFile
deriving Repr, DecidableEq

/-- A Telegram chat/channel entity: numeric id plus optional username. -/
structure TgChannel where
  id : Nat
  username : Option String
deriving Repr, DecidableEq

/-- Python truthiness fallback `a or b` for an optional string
(`None` and the empty string both fall through to the default). -/
def py_or (s : Option String) (d : String) : String :=
  match s with
  | some v => if v = "" then d else v
  | none => d

/-- crud.media_exists (`src/app/crud.py` lines 35-47):
`query(MediaFile).filter(message_id == mid).first() is not None`. -/
def crud.media_exists (db : List MediaFile) (mid : Nat) : Bool :=
  (db.find? (fun m => m.message_id == mid)).isSome

/-- crud.save_media (`src/app/crud.py` lines 50-64): insert one row and commit. -/
def crud.save_media (db : List MediaFile) (m : MediaFile) : List MediaFile :=
  db ++ [m]

/-- crud.get_media_by_id (`src/app/crud.py` lines 67-79):
`query(MediaFile).filter(id == media_id).first()`. -/
def crud.get_media_by_id (db : List MediaFile) (media_id : Nat) : Option MediaFile :=
  db.find? (fun m => m.id == media_id)

/-- Insert into a list kept sorted by `downloaded_at` descending
(stable embedding of `order_by(MediaFile.downloaded_at.desc())`). -/
def insert_ts_desc (m : MediaFile) : List MediaFile → List MediaFile
  | [] => [m]
  | y :: ys => if y.downloaded_at ≥ m.downloaded_at then y :: insert_ts_desc m ys else m :: y :: ys

/-- Sort by `downloaded_at` descending (embedding of the SQL `ORDER BY`). -/
def sort_ts_desc : List MediaFile → List MediaFile
  | [] => []
  | x :: xs => insert_ts_desc x (sort_ts_desc xs)

/-- Shared filter stage of `crud.list_media` and `crud.count_media`:
optional `approved == True` filter then optional `file_type` filter
(a `media_type` of `None` or the empty string is falsy and filters nothing). -/
def crud.media_query (db : List MediaFile) (media_type : Option String) (approved_only : Bool) :
    List MediaFile :=
  let q := if approved_only then db.filter (fun m => m.approved) else db
  match media_type with
  | some t => if t = "" then q else q.filter (fun m => m.file_type == t)
  | none => q

/-- crud.list_media (`src/app/crud.py` lines 82-111): filter, order by
`downloaded_at` descending, offset `skip`, limit `limit`. -/
def crud.list_media (db : List MediaFile) (skip limit : Nat)
    (media_type : Option String) (approved_only : Bool) : List MediaFile :=
  (((sort_ts_desc (crud.media_query db media_type approved_only))).drop skip).take limit

/-- crud.count_media (`src/app/crud.py` lines 160-183): same filters, `.count()`. -/
def crud.count_media (db : List MediaFile) (media_type : Option String) (approved_only : Bool) :
    Nat :=
  (crud.media_query db media_type approved_only).length

/-- Commit of an ORM update: the row matched by primary key is replaced by
its mutated version, all other rows are untouched. -/
def update_by_id (db : List MediaFile) (i : Nat) (f : MediaFile → MediaFile) : List MediaFile :=
  db.map (fun m => if m.id == i then f m else m)

/-- crud.approve_media (`src/app/crud.py` lines 138-157): find by id; if found
set `approved = True` and commit.  Returns the row (or none) and the new table. -/
def crud.approve_media (db : List MediaFile) (media_id : Nat) :
    Option MediaFile × List MediaFile :=
  match db.find? (fun m => m.id == media_id) with
  | none => (none, db)
  | some media =>
      (some { media with approved := true },
        update_by_id db media_id (fun m => { m with approved := true }))

/-- Autoincrement primary key for a fresh insert. -/
def next_id (db : List MediaFile) : Nat :=
  (db.map (fun m => m.id)).foldr Nat.max 0 + 1

/-- MIME classification shared by the live handler, the backfill loop and
`download_and_store_media` (`src/app/telethon_client.py` lines 123-127,
201-205, 299-303): `mime_type in ["audio/mpeg", "audio/ogg"]` gives `audio`,
`mime_type == "application/pdf"` gives `pdf`, anything else is dropped. -/
def classify_mime (mime : Option String) : Option String :=
  if mime = some "audio/mpeg" ∨ mime = some "audio/ogg" then some "audio"
  else if mime = some "application/pdf" then some "pdf"
  else none

/-- Live NewMessage handler (`src/app/telethon_client.py` lines 116-152,
`register_handlers.handler`): classify the attachment; for a supported kind,
insert a pending record unless one already exists for the message id.
The fresh row carries `channel.username or str(channel.id)`,
`suggested_name or "message_<id>"`, a null `s3_key` and `approved = False`. -/
def handler (db : List MediaFile) (channel : TgChannel) (msg : TgMessage) (now : Nat) :
    List MediaFile :=
  match msg.file with
  | none => db
  | some file =>
    match classify_mime file.mime_type with
    | none => db
    | some media_type =>
      if crud.media_exists db msg.id then db
      else
        crud.save_media db
          { id := next_id db
            message_id := msg.id
            channel_username := py_or channel.username (toString channel.id)
            file_name := py_or file.name ("message_" ++ toString msg.id)
            file_type := media_type
            s3_key := none
            downloaded_at := now
            approved := false }

/-- One message of the backfill loop (`src/app/telethon_client.py` lines
199-217 inside `pull_all_channel_media`): same classification and dedup as
the live handler, channel username taken from the `Channel` row; the Bool
reports whether a row was inserted (the `media_count` increment). -/
def backfill_ingest (db : List MediaFile) (chUser : String) (msg : TgMessage) (now : Nat) :
    List MediaFile × Bool :=
  match msg.file with
  | none => (db, false)
  | some file =>
    match classify_mime file.mime_type with
    | none => (db, false)
    | some media_type =>
      if crud.media_exists db msg.id then (db, false)
      else
        (crud.save_media db
          { id := next_id db
            message_id := msg.id
            channel_username := chUser
            file_name := py_or file.name ("message_" ++ toString msg.id)
            file_type := media_type
            s3_key := none
            downloaded_at := now
            approved := false }, true)

/-- Number of catalog rows recorded for a given platform message id. -/
def count_for_message (db : List MediaFile) (mid : Nat) : Nat :=
  (db.filter (fun m => m.message_id == mid)).length

/-- Basename of a file path: the component after the last slash
(embedding of `os.path.basename` for slash-separated paths). -/
def basename (p : String) : String :=
  (p.splitOn "/").getLastD p

/-- Environment capturing the Telegram client and object-store capabilities
used by `download_and_store_media` (`src/app/telethon_client.py` lines 269-319).
`get_message` merges `get_entity` plus `get_messages` (an `Except.error` is a
raised platform exception, an `Except.ok none` is a message without result);
`download_media` returns the temp file path or `none` on failure;
`store_media` maps basename and media kind to the `bucket/object` key, with
`Except.error` an upload failure (`src/app/s3.py`, `store_media`). -/
structure TgEnv where
  connected : Bool
  get_message : Option String → Nat → Except String (Option TgMessage)
  download_media : Nat → Option String
  store_media : String → String → Except String String

/-- Python truthiness of an optional string (`if channel_username:`). -/
def truthy : Option String → Bool
  | none => false
  | some s => s ≠ ""

/-- telethon_client.download_and_store_media (`src/app/telethon_client.py`
lines 269-319): connectivity guard, fetch the message (by channel when the
channel username is truthy, globally otherwise), require an attachment,
download the bytes, re-derive the media kind from the live MIME type, upload
to the bucket selected by kind.  Any failure surfaces as `Except.error`; the
catalog is never touched.  The best-effort temp-file cleanup has no
observable effect in the embedding. -/
def download_and_store_media (env : TgEnv) (message_id : Nat) (channel_username : Option String) :
    Except String String :=
  if ¬ env.connected then .error "Telethon client is not connected"
  else
    match env.get_message (if truthy channel_username then channel_username else none) message_id with
    | .error e => .error e
    | .ok none => .error "Message not found or has no file"
    | .ok (some msg) =>
      match msg.file with
      | none => .error "Message not found or has no file"
      | some file =>
        match env.download_media message_id with
        | none => .error "Failed to download media"
        | some file_path =>
          match classify_mime file.mime_type with
          | none => .error "Unsupported media type"
          | some media_type =>
            match env.store_media (basename file_path) media_type with
            | .error e => .error e
            | .ok s3_key => .ok s3_key

/-- Error raised by an endpoint: either an explicit `HTTPException`
(status, detail) or an uncaught Python `AttributeError` (which the framework
turns into a generic 500). -/
inductive ApiError where
  | http (status : Nat) (detail : String)
  | attributeError (msg : String)
deriving Repr, DecidableEq

/-- api.approve_media (`src/app/api/media.py` lines 138-169): 404 when the id
is unknown; otherwise download and store unconditionally (no check of the
`approved` flag); on failure raise 500 with the catalog untouched; on success
set `s3_key`, refresh `downloaded_at` and set `approved = True`, commit. -/
def api.approve_media (env : TgEnv) (db : List MediaFile) (media_id : Nat) (now : Nat) :
    Except ApiError MediaFile × List MediaFile :=
  match crud.get_media_by_id db media_id with
  | none => (.error (.http 404 "Media not found"), db)
  | some media =>
    match download_and_store_media env media.message_id (some media.channel_username) with
    | .error e => (.error (.http 500 ("Failed to download/store media: " ++ e)), db)
    | .ok s3_key =>
      (.ok { media with s3_key := some s3_key, downloaded_at := now, approved := true },
        update_by_id db media.id
          (fun m => { m with s3_key := some s3_key, downloaded_at := now, approved := true }))

/-- A member of the `successful` list of the batch-approval response. -/
structure BatchSuccess where
  id : Nat
  status : String
  filename : String
deriving Repr, DecidableEq

/-- A member of the `failed` list of the batch-approval response. -/
structure BatchFailure where
  id : Nat
  error : String
  filename : Option String
deriving Repr, DecidableEq

/-- Response of the batch-approval endpoint. -/
structure BatchResult where
  total : Nat
  successful : Nat
  failed : Nat
  successful_items : List BatchSuccess
  failed_items : List BatchFailure
deriving Repr, DecidableEq

/-- Message of the AttributeError raised by `media.filename` in
`api.batch_approve_media`: the `MediaFile` model (`src/app/models.py` line
18) defines the column `file_name`, not `filename`, so every access of
`media.filename` raises.  The literal Python message wraps the class and
attribute names in single quotes; the quotes are omitted here. -/
def attr_err_filename : String :=
  "MediaFile object has no attribute filename"

/-- Sequential per-id loop of api.batch_approve_media
(`src/app/api/media.py` lines 201-235): an unknown id is appended to
`failed` with `Media not found`.  Every other outcome evaluates
`media.filename` while building its response item (lines 210, 217, 228),
which raises AttributeError because the model attribute is `file_name`; the
outer `except` (line 231) then appends the id to `failed` with the
AttributeError message (no filename key) and calls `db.rollback()`.
Concretely: an already-approved row is reported failed (never
`already_approved`); a download failure is reported failed with the
AttributeError message replacing the download error; after a successful
download the commit (line 226) persists the update — so the row becomes
approved — and the success append then raises, so the id is still reported
failed.  `successful` never receives an item.  Processing always continues
with the remaining ids. -/
def api.batch_go (env : TgEnv) (now : Nat) :
    List Nat → List MediaFile → List BatchSuccess → List BatchFailure →
    List MediaFile × List BatchSuccess × List BatchFailure
  | [], db, succ, fail => (db, succ, fail)
  | media_id :: rest, db, succ, fail =>
    match crud.get_media_by_id db media_id with
    | none => api.batch_go env now rest db succ (fail ++ [⟨media_id, "Media not found", none⟩])
    | some media =>
      if media.approved then
        api.batch_go env now rest db succ (fail ++ [⟨media_id, attr_err_filename, none⟩])
      else
        match download_and_store_media env media.message_id (some media.channel_username) with
        | .error _ => api.batch_go env now rest db succ (fail ++ [⟨media_id, attr_err_filename, none⟩])
        | .ok s3_key =>
          api.batch_go env now rest
            (update_by_id db media.id
              (fun m => { m with s3_key := some s3_key, downloaded_at := now, approved := true }))
            succ (fail ++ [⟨media_id, attr_err_filename, none⟩])

/-- api.batch_approve_media (`src/app/api/media.py` lines 177-243): reject an
empty id list and more than 100 ids with 400; otherwise run the sequential
loop and return the summary with successful/failed counts and per-item detail. -/
def api.batch_approve_media (env : TgEnv) (db : List MediaFile) (media_ids : List Nat) (now : Nat) :
    Except ApiError BatchResult × List MediaFile :=
  if media_ids = [] then (.error (.http 400 "No media IDs provided"), db)
  else if media_ids.length > 100 then
    (.error (.http 400 "Maximum 100 media files can be approved at once"), db)
  else
    match api.batch_go env now media_ids db [] [] with
    | (db2, succ, fail) =>
      (.ok { total := media_ids.length
             successful := succ.length
             failed := fail.length
             successful_items := succ
             failed_items := fail }, db2)

/-- Split at the first occurrence of a character, embedding the Python call
`s.split(c, 1)`: two pieces when the character occurs, one piece otherwise. -/
def split_once (cs : List Char) (c : Char) : List (List Char) :=
  if c ∈ cs then [cs.takeWhile (fun x => x ≠ c), (cs.dropWhile (fun x => x ≠ c)).tail]
  else [cs]

/-- api.get_download_url (`src/app/api/media.py` lines 97-133): 404 when the
id is unknown; then `media.s3_key.split("/", 1)` runs BEFORE the approval
guard — a null `s3_key` raises AttributeError and a key without a slash gives
500 `Invalid S3 key format`; only afterwards an unapproved row gives 403,
and an approved row yields the presigned URL (abstracted as `presign`). -/
def api.get_download_url (presign : String → String → Nat → String)
    (db : List MediaFile) (media_id : Nat) (expiration : Nat) :
    Except ApiError (String × Nat) :=
  match crud.get_media_by_id db media_id with
  | none => .error (.http 404 "Media not found")
  | some media =>
    match media.s3_key with
    | none => .error (.attributeError "NoneType object has no attribute split")
    | some key =>
      let parts := split_once key.data '/'
      if parts.length ≠ 2 then .error (.http 500 "Invalid S3 key format")
      else
        let bucket := (parts.headD []).asString
        let object_name := (parts.getLastD []).asString
        if ¬ media.approved then .error (.http 403 "Media is not approved for download")
        else .ok (presign bucket object_name expiration, expiration)

/-- Response of the pending-media endpoint. -/
structure PendingPage where
  items : List MediaFile
  total : Nat
  skip : Nat
  limit : Nat
deriving Repr, DecidableEq

/-- api.list_pending_media (`src/app/api/media.py` lines 21-37): fetch a page
over ALL media (`approved_only=False`), keep only the unapproved rows of that
page, and report `crud.count_media(db, None, approved_only=False)` as the
total. -/
def api.list_pending_media (db : List MediaFile) (skip limit : Nat) : PendingPage :=
  let items := crud.list_media db skip limit none false
  let pending := items.filter (fun m => ¬ m.approved)
  let total_pending := crud.count_media db none false
  { items := pending, total := total_pending, skip := skip, limit := limit }

/-- Left-to-right non-overlapping replacement of every occurrence of `pat` by
`rep`, embedding the Python call `s.replace(pat, rep)` (for non-empty `pat`).
The fuel argument bounds the recursion by the input length; each step consumes
at least one character, so the fuel never runs out on the initial call. -/
def py_replace_go : Nat → List Char → List Char → List Char → List Char
  | _, [], _, _ => []
  | 0, s, _, _ => s
  | fuel + 1, x :: xs, pat, rep =>
    if pat.isPrefixOf (x :: xs) ∧ pat ≠ [] then
      rep ++ py_replace_go fuel ((x :: xs).drop pat.length) pat rep
    else x :: py_replace_go fuel xs pat rep

/-- Python `s.replace(pat, rep)` on character lists (non-empty `pat`). -/
def py_replace (s pat rep : List Char) : List Char :=
  py_replace_go s.length s pat rep

/-- Python `s.strip()`: drop whitespace from both ends. -/
def py_strip (s : List Char) : List Char :=
  ((s.dropWhile Char.isWhitespace).reverse.dropWhile Char.isWhitespace).reverse

/-- Character class `[a-zA-Z0-9_]` of the validation regex. -/
def is_word_char (c : Char) : Bool :=
  c.isAlphanum || c = '_'

/-- The regex `^@[a-zA-Z0-9_]{5,32}$` of `validate_channel_username`
(`src/app/api/channels.py` line 47). -/
def matches_handle (cs : List Char) : Bool :=
  match cs with
  | '@' :: rest => decide (5 ≤ rest.length) && decide (rest.length ≤ 32) && rest.all is_word_char
  | _ => false

/-- Normalization stage of `validate_channel_username`
(`src/app/api/channels.py` lines 34-44): strip the URL forms
`https://t.me/`, `http://t.me/`, `t.me/` (each as a global replace, in that
order), strip whitespace, then prepend `@` unless already present. -/
def normalize_username (username : String) : List Char :=
  let cs := py_replace username.data "https://t.me/".data []
  let cs := py_replace cs "http://t.me/".data []
  let cs := py_replace cs "t.me/".data []
  let cs := py_strip cs
  if cs.head? = some '@' then cs else '@' :: cs

/-- api.channels.validate_channel_username (`src/app/api/channels.py`
lines 19-54): reject the empty string, normalize, then accept exactly the
strings matching `^@[a-zA-Z0-9_]{5,32}$`, returning the normalized handle. -/
def validate_channel_username (username : String) : Except String String :=
  if username = "" then .error "Channel username cannot be empty"
  else
    let cs := normalize_username username
    if matches_handle cs then .ok cs.asString
    else .error ("Invalid channel username format: " ++ username)

/-- Modelled from the spec: `crud.get_all_channels` is called by
`pull_all_channel_media` (`src/app/telethon_client.py` line 181) and by the
diagnostics endpoints, but its definition is not present in
`src/app/crud.py` (only its callers are in the sources).  Per the spec,
backfill runs for every active channel, so with `active_only` it returns
exactly the rows with the active flag set, and every row otherwise. -/
def crud.get_all_channels (chans : List Channel) (active_only : Bool) : List Channel :=
  if active_only then chans.filter (fun c => c.active) else chans

/-- Environment for the backfill loop: connectivity plus the per-channel
fetch (`get_entity` + `get_messages(entity, limit=None)`), indexed by the
attempt number so that distinct retries may behave differently.  An
`Except.error` is a raised platform exception. -/
structure PullEnv where
  connected : Bool
  fetch : String → Nat → Except String (List TgMessage)

/-- Classify-and-ingest fold over one fetched history
(`src/app/telethon_client.py` lines 198-217): returns the new catalog and the
`media_count` of inserted rows. -/
def ingest_messages (db : List MediaFile) (chUser : String) (msgs : List TgMessage) (now : Nat) :
    List MediaFile × Nat :=
  msgs.foldl
    (fun acc msg =>
      let r := backfill_ingest acc.1 chUser msg now
      (r.1, if r.2 then acc.2 + 1 else acc.2))
    (db, 0)

/-- Per-channel retry loop of `pull_all_channel_media`
(`src/app/telethon_client.py` lines 189-229): `while retry_count < max_retries`,
try the fetch; on success ingest the history and report the count; on failure
increment the counter and sleep 5 seconds when another attempt remains.
Returns the catalog, the final retry counter, the sleeps performed, and the
per-channel count when an attempt succeeded. -/
def pull_channel_loop (env : PullEnv) (chUser : String) (now : Nat) (db : List MediaFile)
    (retry_count max_retries : Nat) (sleeps : List Nat) :
    List MediaFile × Nat × List Nat × Option Nat :=
  if retry_count < max_retries then
    match env.fetch chUser retry_count with
    | .ok msgs =>
      let r := ingest_messages db chUser msgs now
      (r.1, retry_count, sleeps, some r.2)
    | .error _ =>
      let rc := retry_count + 1
      pull_channel_loop env chUser now db rc max_retries
        (if rc < max_retries then sleeps ++ [5] else sleeps)
  else (db, retry_count, sleeps, none)
termination_by max_retries - retry_count

/-- Channel fold of `pull_all_channel_media` (`src/app/telethon_client.py`
lines 186-229): each channel runs its own three-attempt retry loop from the
catalog left by the previous channels; a successful channel appends a
per-channel log entry; a failed channel changes nothing and the loop moves on. -/
def pull_all_go (env : PullEnv) (now : Nat) :
    List Channel → List MediaFile → List (String × Nat) → List Nat →
    List MediaFile × List (String × Nat) × List Nat
  | [], db, logs, sleeps => (db, logs, sleeps)
  | ch :: rest, db, logs, sleeps =>
    match pull_channel_loop env ch.username now db 0 3 [] with
    | (db2, _, s, cnt) =>
      pull_all_go env now rest db2
        (match cnt with
         | some c => logs ++ [(ch.username, c)]
         | none => logs)
        (sleeps ++ s)

/-- telethon_client.pull_all_channel_media (`src/app/telethon_client.py`
lines 167-233): bail out untouched when the client cannot connect, else fold
the per-channel retry loop over the active channels
(`crud.get_all_channels(db, active_only=True)`). -/
def pull_all_channel_media (env : PullEnv) (chans : List Channel) (db : List MediaFile)
    (now : Nat) : List MediaFile × List (String × Nat) × List Nat :=
  if ¬ env.connected then (db, [], [])
  else pull_all_go env now (crud.get_all_channels chans true) db [] []

/-- Combined application state: the two tables owned by the registry and the
catalog.  Channel endpoints read and write only the `channels` component. -/
structure AppState where
  channels : List Channel
  media : List MediaFile
deriving Repr, DecidableEq

/-- api.channels.delete_channel (`src/app/api/channels.py` lines 137-148):
soft-delete, flipping the active flag to false; the media catalog is not
touched. -/
def api.delete_channel (st : AppState) (channel_id : Nat) : Except ApiError Nat × AppState :=
  match st.channels.find? (fun c => c.id == channel_id) with
  | none => (.error (.http 404 "Channel not found"), st)
  | some _ =>
    (.ok channel_id,
      { st with channels :=
          st.channels.map (fun c => if c.id == channel_id then { c with active := false } else c) })

/-- api.channels.toggle_channel (`src/app/api/channels.py` lines 150-190):
set the active flag from the payload; the media catalog is not touched (a
reactivation only schedules a background backfill). -/
def api.toggle_channel (st : AppState) (channel_id : Nat) (active : Bool) :
    Except ApiError Channel × AppState :=
  match st.channels.find? (fun c => c.id == channel_id) with
  | none => (.error (.http 404 "Channel not found"), st)
  | some ch =>
    (.ok { ch with active := active },
      { st with channels :=
          st.channels.map (fun c => if c.id == channel_id then { c with active := active } else c) })

/-- The record inserted by the live handler. -/
def handler_row (db : List MediaFile) (ch : TgChannel) (msg : TgMessage) (file : TgFile)
    (mt : String) (now : Nat) : MediaFile :=
  { id := next_id db
    message_id := msg.id
    channel_username := py_or ch.username (toString ch.id)
    file_name := py_or file.name ("message_" ++ toString msg.id)
    file_type := mt
    s3_key := none
    downloaded_at := now
    approved := false }

/-- The record inserted by the backfill loop. -/
def backfill_row (db : List MediaFile) (chUser : String) (msg : TgMessage) (file : TgFile)
    (mt : String) (now : Nat) : MediaFile :=
  { id := next_id db
    message_id := msg.id
    channel_username := chUser
    file_name := py_or file.name ("message_" ++ toString msg.id)
    file_type := mt
    s3_key := none
    downloaded_at := now
    approved := false }

/-- Sample channel entity for witnesses. -/
def chX : TgChannel := ⟨7, some "chan"⟩

/-- Sample audio attachment for witnesses. -/
def fileX : TgFile := ⟨some "audio/mpeg", some "f.mp3"⟩

/-- Sample message carrying the audio attachment. -/
def msgX : TgMessage := ⟨10, some fileX⟩

/-- A pending (Discovered) catalog row: null storage key, unapproved. -/
def mPending : MediaFile :=
  { id := 1, message_id := 10, channel_username := "chan", file_name := "f.mp3",
    file_type := "audio", s3_key := none, downloaded_at := 3, approved := false }

/-- An approved catalog row with a well-formed storage key. -/
def mApproved : MediaFile :=
  { id := 2, message_id := 11, channel_username := "chan", file_name := "g.pdf",
    file_type := "pdf", s3_key := some "pdf-files/g.pdf", downloaded_at := 5, approved := true }

/-- A catalog holding one approved and one pending row. -/
def dbMix : List MediaFile := [mApproved, mPending]

/-- Environment whose platform lookups always raise. -/
def env_fail : TgEnv :=
  { connected := true
    get_message := fun _ _ => .error "boom"
    download_media := fun _ => none
    store_media := fun _ _ => .error "upload failed" }

/-- Environment where every message resolves to an audio attachment and the
upload succeeds with a fixed key. -/
def env_ok : TgEnv :=
  { connected := true
    get_message := fun _ mid => .ok (some ⟨mid, some fileX⟩)
    download_media := fun _ => some "tmp/f.mp3"
    store_media := fun _ _ => .ok "audio-files/uuid-f.mp3" }

/-- Stand-in presigned-URL generator for witnesses. -/
def presign0 : String → String → Nat → String :=
  fun bucket object _ => bucket ++ "/" ++ object

/-- A second pending row, used by the batch witness. -/
def mPending2 : MediaFile :=
  { id := 3, message_id := 12, channel_username := "chan", file_name := "h.ogg",
    file_type := "audio", s3_key := none, downloaded_at := 4, approved := false }

/-- A catalog with two pending rows. -/
def dbTriple : List MediaFile := [mPending, mPending2]

/-- Message used by the backfill witness. -/
def msgY : TgMessage := ⟨20, some ⟨some "application/pdf", some "d.pdf"⟩⟩

/-- Channel registry used by the backfill witness: two active, one inactive. -/
def chansX : List Channel := [⟨1, "alpha", true⟩, ⟨2, "beta", true⟩, ⟨3, "gamma", false⟩]

/-- Environment where channel beta succeeds from the second attempt on and
every other fetch raises. -/
def pullEnvX : PullEnv :=
  { connected := true
    fetch := fun u a => if u = "beta" then (if 1 ≤ a then .ok [msgY] else .error "net")
             else .error "net" }

/-- A catalog transition preserves approval when every approved row survives
under its id, still approved, and keeps a storage key whenever it had one. -/
def preserves_approval (db db2 : List MediaFile) : Prop :=
  ∀ m ∈ db, m.approved = true →
    ∃ m2 ∈ db2, m2.id = m.id ∧ m2.approved = true ∧ (m.s3_key.isSome → m2.s3_key.isSome)

/-! ### Lemmas and claim theorems -/

lemma get_media_by_id_id {db : List MediaFile} {i : Nat} {m : MediaFile}
    (h : crud.get_media_by_id db i = some m) : m.id = i := by
  have hp := List.find?_some h
  simpa using hp

lemma get_media_by_id_mem {db : List MediaFile} {i : Nat} {m : MediaFile}
    (h : crud.get_media_by_id db i = some m) : m ∈ db :=
  List.mem_of_find?_eq_some h

lemma update_by_id_get_ne {db : List MediaFile} {i j : Nat} {f : MediaFile → MediaFile}
    (hf : ∀ m, (f m).id = m.id) (hne : j ≠ i) :
    crud.get_media_by_id (update_by_id db i f) j = crud.get_media_by_id db j := by
  induction db with
  | nil => rfl
  | cons m rest ih =>
    simp only [update_by_id, List.map_cons, crud.get_media_by_id] at *
    by_cases hmi : m.id = i
    · have h1 : (if m.id == i then f m else m) = f m := by simp [hmi]
      rw [h1, List.find?_cons_of_neg, List.find?_cons_of_neg]
      · exact ih
      · simp [hmi, hne.symm]
      · simp [hf m, hmi, hne.symm]
    · have h1 : (if m.id == i then f m else m) = m := by simp [hmi]
      rw [h1]
      by_cases hmj : m.id = j
      · rw [List.find?_cons_of_pos, List.find?_cons_of_pos] <;> simp [hmj]
      · rw [List.find?_cons_of_neg, List.find?_cons_of_neg]
        · exact ih
        · simp [hmj]
        · simp [hmj]

lemma update_by_id_get_self {db : List MediaFile} {i : Nat} {f : MediaFile → MediaFile}
    (hf : ∀ m, (f m).id = m.id) :
    crud.get_media_by_id (update_by_id db i f) i = (crud.get_media_by_id db i).map f := by
  induction db with
  | nil => rfl
  | cons m rest ih =>
    simp only [update_by_id, List.map_cons, crud.get_media_by_id] at *
    by_cases hmi : m.id = i
    · have h1 : (if m.id == i then f m else m) = f m := by simp [hmi]
      rw [h1, List.find?_cons_of_pos, List.find?_cons_of_pos] <;> simp [hf m, hmi]
    · have h1 : (if m.id == i then f m else m) = m := by simp [hmi]
      rw [h1, List.find?_cons_of_neg, List.find?_cons_of_neg]
      · exact ih
      · simp [hmi]
      · simp [hmi]

lemma media_exists_iff {db : List MediaFile} {mid : Nat} :
    crud.media_exists db mid = true ↔ ∃ m ∈ db, m.message_id = mid := by
  simp [crud.media_exists, List.find?_isSome]

lemma count_for_message_append {db : List MediaFile} {m : MediaFile} {mid : Nat} :
    count_for_message (db ++ [m]) mid
      = count_for_message db mid + (if m.message_id = mid then 1 else 0) := by
  by_cases h : m.message_id = mid <;>
    simp [count_for_message, List.filter_append, h]

lemma count_for_message_eq_zero {db : List MediaFile} {mid : Nat} :
    count_for_message db mid = 0 ↔ ∀ m ∈ db, m.message_id ≠ mid := by
  simp [count_for_message, List.length_eq_zero, List.filter_eq_nil_iff]

lemma media_exists_false_of_count_zero {db : List MediaFile} {mid : Nat}
    (h : count_for_message db mid = 0) : crud.media_exists db mid = false := by
  cases hx : crud.media_exists db mid
  · rfl
  · rcases media_exists_iff.mp hx with ⟨m, hm, hmid⟩
    exact absurd hmid (count_for_message_eq_zero.mp h m hm)

lemma handler_eq_of_exists {db : List MediaFile} {ch : TgChannel} {msg : TgMessage} {now : Nat}
    (h : crud.media_exists db msg.id = true) :
    handler db ch msg now = db := by
  unfold handler
  split
  · rfl
  · split
    · rfl
    · simp [h]

lemma backfill_eq_of_exists {db : List MediaFile} {chUser : String} {msg : TgMessage} {now : Nat}
    (h : crud.media_exists db msg.id = true) :
    backfill_ingest db chUser msg now = (db, false) := by
  unfold backfill_ingest
  split
  · rfl
  · split
    · rfl
    · simp [h]

lemma handler_eq_insert {db : List MediaFile} {ch : TgChannel} {msg : TgMessage} {now : Nat}
    {file : TgFile} {mt : String}
    (hf : msg.file = some file) (hc : classify_mime file.mime_type = some mt)
    (hne : crud.media_exists db msg.id = false) :
    handler db ch msg now = db ++ [handler_row db ch msg file mt now] := by
  simp only [handler, hf, hc, hne, Bool.false_eq_true, if_false, crud.save_media]
  rfl

lemma backfill_eq_insert {db : List MediaFile} {chUser : String} {msg : TgMessage} {now : Nat}
    {file : TgFile} {mt : String}
    (hf : msg.file = some file) (hc : classify_mime file.mime_type = some mt)
    (hne : crud.media_exists db msg.id = false) :
    backfill_ingest db chUser msg now = (db ++ [backfill_row db chUser msg file mt now], true) := by
  simp only [backfill_ingest, hf, hc, hne, Bool.false_eq_true, if_false, crud.save_media]
  rfl

lemma media_exists_handler {db : List MediaFile} {ch : TgChannel} {msg : TgMessage} {now : Nat}
    {file : TgFile} {mt : String}
    (hf : msg.file = some file) (hc : classify_mime file.mime_type = some mt) :
    crud.media_exists (handler db ch msg now) msg.id = true := by
  cases hex : crud.media_exists db msg.id
  · rw [handler_eq_insert hf hc hex]
    exact media_exists_iff.mpr ⟨handler_row db ch msg file mt now, by simp, rfl⟩
  · rw [handler_eq_of_exists hex]; exact hex

lemma media_exists_backfill {db : List MediaFile} {chUser : String} {msg : TgMessage} {now : Nat}
    {file : TgFile} {mt : String}
    (hf : msg.file = some file) (hc : classify_mime file.mime_type = some mt) :
    crud.media_exists (backfill_ingest db chUser msg now).1 msg.id = true := by
  cases hex : crud.media_exists db msg.id
  · rw [backfill_eq_insert hf hc hex]
    exact media_exists_iff.mpr ⟨backfill_row db chUser msg file mt now, by simp, rfl⟩
  · rw [backfill_eq_of_exists hex]; exact hex

/-- C2: Ingestion is idempotent per message id: for a message whose attachment
classifies as a supported kind and that has no catalog record yet, one
ingestion (live handler or backfill) leaves exactly one record for the
message id, and a second ingestion by either route, with any channel identity
and any timestamp, returns the catalog unchanged. -/
theorem ingestion_idempotent_per_message_id :
    ∀ (db : List MediaFile) (ch ch2 : TgChannel) (chUser chUser2 : String)
      (msg : TgMessage) (now now2 : Nat) (file : TgFile) (mt : String),
      msg.file = some file → classify_mime file.mime_type = some mt →
      count_for_message db msg.id = 0 →
      (count_for_message (handler db ch msg now) msg.id = 1
        ∧ count_for_message (backfill_ingest db chUser msg now).1 msg.id = 1)
      ∧ (handler (handler db ch msg now) ch2 msg now2 = handler db ch msg now
        ∧ (backfill_ingest (handler db ch msg now) chUser2 msg now2).1 = handler db ch msg now
        ∧ handler (backfill_ingest db chUser msg now).1 ch2 msg now2
            = (backfill_ingest db chUser msg now).1
        ∧ (backfill_ingest (backfill_ingest db chUser msg now).1 chUser2 msg now2).1
            = (backfill_ingest db chUser msg now).1) := by
  intro db ch ch2 chUser chUser2 msg now now2 file mt hf hc h0
  have hne := media_exists_false_of_count_zero h0
  refine ⟨⟨?_, ?_⟩, ?_, ?_, ?_, ?_⟩
  · rw [handler_eq_insert hf hc hne, count_for_message_append]
    simp [h0, handler_row]
  · rw [backfill_eq_insert hf hc hne]
    simp [count_for_message_append, h0, backfill_row]
  · exact handler_eq_of_exists (media_exists_handler hf hc)
  · rw [backfill_eq_of_exists (media_exists_handler hf hc)]
  · exact handler_eq_of_exists (media_exists_backfill hf hc)
  · rw [backfill_eq_of_exists (media_exists_backfill hf hc)]

/-- Witness for C2 at a concrete message and an empty catalog. -/
theorem ingestion_idempotent_witness :
    count_for_message (handler [] chX msgX 3) 10 = 1
      ∧ handler (handler [] chX msgX 3) chX msgX 9 = handler [] chX msgX 3 := by
  have h := ingestion_idempotent_per_message_id [] chX chX "chan" "chan" msgX 3 9 fileX "audio"
    rfl rfl rfl
  exact ⟨h.1.1, h.2.1⟩

/-- C7: Only `audio/mpeg` and `audio/ogg` classify as audio, only
`application/pdf` classifies as pdf, and a message with no attachment or an
attachment of any other MIME type produces no catalog record on either
ingestion route. -/
theorem ingestion_mime_classification :
    (∀ mime : Option String,
        classify_mime mime = some "audio" ↔ mime = some "audio/mpeg" ∨ mime = some "audio/ogg")
    ∧ (∀ mime : Option String, classify_mime mime = some "pdf" ↔ mime = some "application/pdf")
    ∧ (∀ (db : List MediaFile) (ch : TgChannel) (chUser : String) (msg : TgMessage) (now : Nat),
        (msg.file = none ∨ ∃ file, msg.file = some file ∧ classify_mime file.mime_type = none) →
        handler db ch msg now = db ∧ (backfill_ingest db chUser msg now).1 = db) := by
  refine ⟨?_, ?_, ?_⟩
  · intro mime
    unfold classify_mime
    split_ifs with h1 h2
    · exact iff_of_true rfl h1
    · refine iff_of_false (by decide) ?_
      intro hd
      rcases hd with h | h <;> exact absurd (h.symm.trans h2) (by decide)
    · exact iff_of_false (by decide) h1
  · intro mime
    unfold classify_mime
    split_ifs with h1 h2
    · refine iff_of_false (by decide) ?_
      intro hp
      rcases h1 with h | h <;> exact absurd (h.symm.trans hp) (by decide)
    · exact iff_of_true rfl h2
    · exact iff_of_false (by decide) h2
  · intro db ch chUser msg now hbad
    rcases hbad with hnone | ⟨file, hf, hc⟩
    · exact ⟨by simp [handler, hnone], by simp [backfill_ingest, hnone]⟩
    · exact ⟨by simp [handler, hf, hc], by simp [backfill_ingest, hf, hc]⟩

/-- Witness for C7: a video attachment is dropped, the audio and pdf
classifications hold at their literal MIME strings. -/
theorem ingestion_mime_classification_witness :
    classify_mime (some "video/mp4") = none
      ∧ (classify_mime (some "audio/ogg") = some "audio"
          ↔ (some "audio/ogg" = some "audio/mpeg" ∨ (some "audio/ogg" : Option String) = some "audio/ogg"))
      ∧ (handler [] chX ⟨11, some ⟨some "video/mp4", none⟩⟩ 3 = [] ∧
          (backfill_ingest [] "chan" ⟨11, some ⟨some "video/mp4", none⟩⟩ 3).1 = []) := by
  refine ⟨rfl, ?_, ?_⟩
  · exact ingestion_mime_classification.1 (some "audio/ogg")
  · exact ingestion_mime_classification.2.2 [] chX "chan" ⟨11, some ⟨some "video/mp4", none⟩⟩ 3
      (Or.inr ⟨⟨some "video/mp4", none⟩, rfl, rfl⟩)

lemma normalize_username_head (s : String) : ∃ rest, normalize_username s = '@' :: rest := by
  simp only [normalize_username]
  by_cases h :
      (py_strip (py_replace (py_replace (py_replace s.data "https://t.me/".data [])
        "http://t.me/".data []) "t.me/".data [])).head? = some '@'
  · rw [if_pos h]
    cases hu : py_strip (py_replace (py_replace (py_replace s.data "https://t.me/".data [])
        "http://t.me/".data []) "t.me/".data []) with
    | nil => rw [hu] at h; simp at h
    | cons a t =>
      rw [hu] at h
      simp only [List.head?] at h
      exact ⟨t, by rw [Option.some.inj h]⟩
  · rw [if_neg h]
    exact ⟨_, rfl⟩

/-- C8: The three accepted input forms all normalize to `@My_Channel1`, and
any input whose post-normalization name (the part after the `@`) is shorter
than 5 or longer than 32 characters, or contains a character outside
`[A-Za-z0-9_]`, is rejected with a validation error; every accepted result
matches `^@[a-zA-Z0-9_]{5,32}$`. -/
theorem channel_username_normalization :
    (validate_channel_username "https://t.me/My_Channel1" = .ok "@My_Channel1"
      ∧ validate_channel_username "t.me/My_Channel1" = .ok "@My_Channel1"
      ∧ validate_channel_username "My_Channel1" = .ok "@My_Channel1")
    ∧ (∀ s : String, s ≠ "" →
        ((normalize_username s).tail.length < 5 ∨ 32 < (normalize_username s).tail.length
          ∨ (normalize_username s).tail.all is_word_char = false) →
        ∃ e, validate_channel_username s = .error e)
    ∧ (∀ s r, validate_channel_username s = .ok r →
        ∃ rest, r.data = '@' :: rest ∧ 5 ≤ rest.length ∧ rest.length ≤ 32
          ∧ rest.all is_word_char = true) := by
  refine ⟨⟨by rfl, by rfl, by rfl⟩, ?_, ?_⟩
  · intro s hs hbad
    unfold validate_channel_username
    rw [if_neg hs]
    cases hm : matches_handle (normalize_username s)
    · simp only [hm, Bool.false_eq_true, if_false]
      exact ⟨_, rfl⟩
    · exfalso
      obtain ⟨rest, heq⟩ := normalize_username_head s
      rw [heq] at hm hbad
      simp only [matches_handle, Bool.and_eq_true, decide_eq_true_eq] at hm
      simp only [List.tail_cons] at hbad
      rcases hbad with hb | hb | hb
      · omega
      · omega
      · rw [hm.2] at hb
        cases hb
  · intro s r hok
    unfold validate_channel_username at hok
    by_cases hs : s = ""
    · rw [if_pos hs] at hok
      simp at hok
    · rw [if_neg hs] at hok
      cases hm : matches_handle (normalize_username s) with
      | false =>
        simp only [hm, Bool.false_eq_true, if_false] at hok
        exact Except.noConfusion hok
      | true =>
        simp only [hm, if_true] at hok
        obtain ⟨rest, heq⟩ := normalize_username_head s
        rw [heq] at hm
        simp only [matches_handle, Bool.and_eq_true, decide_eq_true_eq] at hm
        refine ⟨rest, ?_, hm.1.1, hm.1.2, hm.2⟩
        have hr : r = (normalize_username s).asString := (Except.ok.inj hok).symm
        rw [hr, heq]
        rfl

/-- Witness for C8: the input `abc` normalizes to the 3-character name `abc`
and is rejected. -/
theorem channel_username_normalization_witness :
    ∃ e, validate_channel_username "abc" = .error e :=
  channel_username_normalization.2.1 "abc" (by decide) (Or.inl (by decide))

/-- C1: A failed approval mutates nothing: an unknown id yields 404 with the
catalog unchanged, any download/upload failure yields 500 with the catalog
unchanged (so the record keeps its storage location, timestamp and approval
flag), and a later approve of the same id with a working environment
succeeds. -/
theorem approve_failure_leaves_catalog_unchanged :
    (∀ (env : TgEnv) (db : List MediaFile) (mid now : Nat),
        crud.get_media_by_id db mid = none →
        api.approve_media env db mid now = (.error (.http 404 "Media not found"), db))
    ∧ (∀ (env : TgEnv) (db : List MediaFile) (mid now : Nat) (media : MediaFile) (e : String),
        crud.get_media_by_id db mid = some media →
        download_and_store_media env media.message_id (some media.channel_username) = .error e →
        api.approve_media env db mid now
          = (.error (.http 500 ("Failed to download/store media: " ++ e)), db))
    ∧ (∀ (env : TgEnv) (db : List MediaFile) (mid now : Nat) (media : MediaFile) (k : String),
        crud.get_media_by_id db mid = some media →
        download_and_store_media env media.message_id (some media.channel_username) = .ok k →
        (api.approve_media env db mid now).1
            = .ok { media with s3_key := some k, downloaded_at := now, approved := true }
          ∧ crud.get_media_by_id (api.approve_media env db mid now).2 mid
            = some { media with s3_key := some k, downloaded_at := now, approved := true }) := by
  refine ⟨?_, ?_, ?_⟩
  · intro env db mid now h
    simp [api.approve_media, h]
  · intro env db mid now media e h hd
    simp [api.approve_media, h, hd]
  · intro env db mid now media k h hd
    constructor
    · simp [api.approve_media, h, hd]
    · have hid := get_media_by_id_id h
      have hf : ∀ m : MediaFile,
          ({ m with s3_key := some k, downloaded_at := now, approved := true } : MediaFile).id
            = m.id := fun m => rfl
      have happ : (api.approve_media env db mid now).2
          = update_by_id db media.id
              (fun m => { m with s3_key := some k, downloaded_at := now, approved := true }) := by
        simp [api.approve_media, h, hd]
      rw [happ, hid, update_by_id_get_self hf, h]
      simp [hid]

/-- Witness for C1: the unknown id 99 gives 404 leaving the catalog alone, a
failing platform gives 500 leaving the catalog alone, and a retry against a
working platform approves the pending row. -/
theorem approve_failure_unchanged_witness :
    api.approve_media env_fail dbMix 99 7 = (.error (.http 404 "Media not found"), dbMix)
      ∧ api.approve_media env_fail dbMix 1 7
          = (.error (.http 500 "Failed to download/store media: boom"), dbMix)
      ∧ (api.approve_media env_ok dbMix 1 7).1
          = .ok { mPending with
                  s3_key := some "audio-files/uuid-f.mp3"
                  downloaded_at := 7
                  approved := true } := by
  refine ⟨?_, ?_, ?_⟩
  · exact approve_failure_leaves_catalog_unchanged.1 env_fail dbMix 99 7 rfl
  · exact approve_failure_leaves_catalog_unchanged.2.1 env_fail dbMix 1 7 mPending "boom" rfl rfl
  · exact (approve_failure_leaves_catalog_unchanged.2.2 env_ok dbMix 1 7 mPending
      "audio-files/uuid-f.mp3" rfl rfl).1

/-- C3 counterexample: neither half of the claim holds.  The single-approve
endpoint has no already-approved check: on the already-approved row
`mApproved` it still calls the downloader — with a failing platform it
returns 500 instead of a no-op success, and with a working platform it
overwrites the stored key `pdf-files/g.pdf` (so the record is not
unchanged).  And the batch endpoint never reports `already_approved`: the
`media.filename` access raises AttributeError, so the already-approved id
2 is counted failed, not successful. -/
theorem single_approve_already_approved_not_noop :
    mApproved.approved = true
      ∧ (api.approve_media env_fail [mApproved] 2 9).1
          = .error (.http 500 "Failed to download/store media: boom")
      ∧ (crud.get_media_by_id (api.approve_media env_ok [mApproved] 2 9).2 2).map
            (fun m => m.s3_key)
          = some (some "audio-files/uuid-f.mp3")
      ∧ (api.batch_approve_media env_fail [mApproved] [2] 9).1
          = .ok { total := 1, successful := 0, failed := 1,
                  successful_items := [],
                  failed_items := [⟨2, attr_err_filename, none⟩] } :=
  ⟨rfl, rfl, rfl, rfl⟩

/-- C3 amended: approving an already-approved id is a no-op success nowhere.
The batch endpoint does skip the download for an already-approved id
(the environment is arbitrary) and leaves the catalog unchanged, but the
`media.filename` access raises AttributeError, so the id is reported as a
failed item, never as an `already_approved` success; the single-approve
endpoint re-runs the download/upload even for an approved record — failing
with 500 when the download fails and overwriting `s3_key` and `downloaded_at`
when it succeeds (the record stays approved). -/
theorem approve_already_approved_amended :
    (∀ (env : TgEnv) (db : List MediaFile) (mid now : Nat) (media : MediaFile),
        crud.get_media_by_id db mid = some media → media.approved = true →
        api.batch_approve_media env db [mid] now
          = (.ok { total := 1, successful := 0, failed := 1,
                   successful_items := [],
                   failed_items := [⟨mid, attr_err_filename, none⟩] }, db))
    ∧ (∀ (env : TgEnv) (db : List MediaFile) (mid now : Nat) (media : MediaFile) (e : String),
        crud.get_media_by_id db mid = some media → media.approved = true →
        download_and_store_media env media.message_id (some media.channel_username) = .error e →
        (api.approve_media env db mid now).1
          = .error (.http 500 ("Failed to download/store media: " ++ e)))
    ∧ (∀ (env : TgEnv) (db : List MediaFile) (mid now : Nat) (media : MediaFile) (k : String),
        crud.get_media_by_id db mid = some media → media.approved = true →
        download_and_store_media env media.message_id (some media.channel_username) = .ok k →
        crud.get_media_by_id (api.approve_media env db mid now).2 mid
          = some { media with s3_key := some k, downloaded_at := now, approved := true }) := by
  refine ⟨?_, ?_, ?_⟩
  · intro env db mid now media h hap
    simp [api.batch_approve_media, api.batch_go, h, hap]
  · intro env db mid now media e h hap hd
    simp [api.approve_media, h, hd]
  · intro env db mid now media k h hap hd
    have hid := get_media_by_id_id h
    have hf : ∀ m : MediaFile,
        ({ m with s3_key := some k, downloaded_at := now, approved := true } : MediaFile).id
          = m.id := fun m => rfl
    have happ : (api.approve_media env db mid now).2
        = update_by_id db media.id
            (fun m => { m with s3_key := some k, downloaded_at := now, approved := true }) := by
      simp [api.approve_media, h, hd]
    rw [happ, hid, update_by_id_get_self hf, h]
    simp [hid]

/-- Witness for C3 amended: batch approval of the approved row reports a
failed item with the AttributeError message, catalog unchanged, under the
failing environment (no download consulted); single approval with a working
platform overwrites the storage key. -/
theorem approve_already_approved_amended_witness :
    api.batch_approve_media env_fail [mApproved] [2] 9
        = (.ok { total := 1, successful := 0, failed := 1,
                 successful_items := [],
                 failed_items := [⟨2, attr_err_filename, none⟩] }, [mApproved])
      ∧ crud.get_media_by_id (api.approve_media env_ok [mApproved] 2 9).2 2
          = some { mApproved with
                   s3_key := some "audio-files/uuid-f.mp3"
                   downloaded_at := 9
                   approved := true } := by
  refine ⟨?_, ?_⟩
  · exact approve_already_approved_amended.1 env_fail [mApproved] 2 9 mApproved rfl rfl
  · exact approve_already_approved_amended.2.2 env_ok [mApproved] 2 9 mApproved
      "audio-files/uuid-f.mp3" rfl rfl rfl

/-- C4 counterexample: the key split runs before the approval guard.  The
ordinary pending row (unapproved, null storage key) triggers the
AttributeError path, not the claimed 403 forbidden error. -/
theorem download_url_unapproved_not_always_forbidden :
    mPending.approved = false
      ∧ mPending.s3_key = none
      ∧ api.get_download_url presign0 [mPending] 1 3600
          = .error (.attributeError "NoneType object has no attribute split")
      ∧ api.get_download_url presign0 [{ mPending with s3_key := some "noslash" }] 1 3600
          = .error (.http 500 "Invalid S3 key format") :=
  ⟨rfl, rfl, rfl, rfl⟩

/-- C4 amended: for an unapproved record the endpoint never returns a URL,
but the error class depends on the storage key: an absent key raises
AttributeError (500), a key without a slash returns 500 `Invalid S3 key
format`, and only a key containing a slash reaches the 403 forbidden guard. -/
theorem download_url_unapproved_amended :
    ∀ (presign : String → String → Nat → String) (db : List MediaFile) (mid expn : Nat)
      (media : MediaFile),
      crud.get_media_by_id db mid = some media → media.approved = false →
      (media.s3_key = none →
        api.get_download_url presign db mid expn
          = .error (.attributeError "NoneType object has no attribute split"))
      ∧ (∀ k, media.s3_key = some k → '/' ∈ k.data →
          api.get_download_url presign db mid expn
            = .error (.http 403 "Media is not approved for download"))
      ∧ (∀ k, media.s3_key = some k → '/' ∉ k.data →
          api.get_download_url presign db mid expn
            = .error (.http 500 "Invalid S3 key format"))
      ∧ (∀ u, api.get_download_url presign db mid expn ≠ .ok u) := by
  intro presign db mid expn media h hap
  have h1 : media.s3_key = none →
      api.get_download_url presign db mid expn
        = .error (.attributeError "NoneType object has no attribute split") := by
    intro hk
    simp [api.get_download_url, h, hk]
  have h2 : ∀ k, media.s3_key = some k → '/' ∈ k.data →
      api.get_download_url presign db mid expn
        = .error (.http 403 "Media is not approved for download") := by
    intro k hk hmem
    simp [api.get_download_url, h, hk, split_once, hmem, hap]
  have h3 : ∀ k, media.s3_key = some k → '/' ∉ k.data →
      api.get_download_url presign db mid expn
        = .error (.http 500 "Invalid S3 key format") := by
    intro k hk hmem
    simp [api.get_download_url, h, hk, split_once, hmem]
  refine ⟨h1, h2, h3, ?_⟩
  intro u hu
  cases hk : media.s3_key with
  | none =>
    rw [h1 hk] at hu
    exact Except.noConfusion hu
  | some k =>
    by_cases hmem : '/' ∈ k.data
    · rw [h2 k hk hmem] at hu
      exact Except.noConfusion hu
    · rw [h3 k hk hmem] at hu
      exact Except.noConfusion hu

/-- Witness for C4 amended: the pending row with a well-formed key reaches
the 403 guard, and the ordinary pending row is never issued a URL. -/
theorem download_url_unapproved_amended_witness :
    api.get_download_url presign0 [{ mPending with s3_key := some "audio-files/f.mp3" }] 1 3600
        = .error (.http 403 "Media is not approved for download")
      ∧ api.get_download_url presign0 [mPending] 1 3600 ≠ .ok ("x", 3600) := by
  refine ⟨?_, ?_⟩
  · exact (download_url_unapproved_amended presign0
      [{ mPending with s3_key := some "audio-files/f.mp3" }] 1 3600
      { mPending with s3_key := some "audio-files/f.mp3" } rfl rfl).2.1
      "audio-files/f.mp3" rfl (by decide)
  · exact (download_url_unapproved_amended presign0 [mPending] 1 3600 mPending rfl rfl).2.2.2
      ("x", 3600)

/-- C9: On a catalog with one approved and one pending row the pending
endpoint returns only the pending row as items, yet reports `total = 2`: the
code computes the variable `total_pending` with
`count_media(db, media_type=None, approved_only=False)`, which counts every
row including approved ones, although only one record is pending. -/
theorem list_pending_total_counts_approved :
    (api.list_pending_media dbMix 0 100).items = [mPending]
      ∧ (api.list_pending_media dbMix 0 100).total = 2
      ∧ (dbMix.filter (fun m => m.approved = false)).length = 1 :=
  ⟨rfl, rfl, rfl⟩

/-- C5: On the concrete failing input — ids `[99, 1, 3]` against the catalog
`dbTriple`, where 99 is unknown and rows 1 and 3 are pending and
downloadable — batch approval returns successful=0, failed=3, not the
claimed successful=2, failed=1: every append of a success item evaluates
`media.filename` (`src/app/api/media.py` lines 210 and 228), which raises
AttributeError because the model attribute is `file_name`, and the outer
handler records the id as failed.  Processing is still sequential and
continues past each failure, and the two downloadable rows are committed as
approved before the exception, so the catalog holds them approved while the
response reports them failed. -/
theorem batch_approve_filename_attribute_error :
    (api.batch_approve_media env_ok dbTriple [99, 1, 3] 7).1
        = .ok { total := 3, successful := 0, failed := 3,
                successful_items := [],
                failed_items := [⟨99, "Media not found", none⟩,
                                 ⟨1, attr_err_filename, none⟩,
                                 ⟨3, attr_err_filename, none⟩] }
      ∧ (crud.get_media_by_id (api.batch_approve_media env_ok dbTriple [99, 1, 3] 7).2 1).map
            (fun m => m.approved) = some true
      ∧ (crud.get_media_by_id (api.batch_approve_media env_ok dbTriple [99, 1, 3] 7).2 3).map
            (fun m => m.approved) = some true :=
  ⟨rfl, rfl, rfl⟩

lemma pull_channel_loop_step_fail {env : PullEnv} {u : String} {now : Nat} {db : List MediaFile}
    {rc : Nat} {sleeps : List Nat} {e : String}
    (h : env.fetch u rc = .error e) (hlt : rc < 3) :
    pull_channel_loop env u now db rc 3 sleeps
      = pull_channel_loop env u now db (rc + 1) 3
          (if rc + 1 < 3 then sleeps ++ [5] else sleeps) := by
  rw [pull_channel_loop]
  simp [hlt, h]

lemma pull_channel_loop_step_ok {env : PullEnv} {u : String} {now : Nat} {db : List MediaFile}
    {rc : Nat} {sleeps : List Nat} {msgs : List TgMessage}
    (h : env.fetch u rc = .ok msgs) (hlt : rc < 3) :
    pull_channel_loop env u now db rc 3 sleeps
      = ((ingest_messages db u msgs now).1, rc, sleeps,
          some (ingest_messages db u msgs now).2) := by
  rw [pull_channel_loop]
  simp [hlt, h]

lemma pull_channel_loop_done {env : PullEnv} {u : String} {now : Nat} {db : List MediaFile}
    {sleeps : List Nat} :
    pull_channel_loop env u now db 3 3 sleeps = (db, 3, sleeps, none) := by
  rw [pull_channel_loop]
  simp

lemma pull_channel_loop_all_fail {env : PullEnv} {u : String} {now : Nat} {db : List MediaFile}
    (hf : ∀ a, a < 3 → ∃ e, env.fetch u a = .error e) :
    pull_channel_loop env u now db 0 3 [] = (db, 3, [5, 5], none) := by
  obtain ⟨e0, h0⟩ := hf 0 (by omega)
  obtain ⟨e1, h1⟩ := hf 1 (by omega)
  obtain ⟨e2, h2⟩ := hf 2 (by omega)
  rw [pull_channel_loop_step_fail h0 (by omega)]
  norm_num
  rw [pull_channel_loop_step_fail h1 (by omega)]
  norm_num
  rw [pull_channel_loop_step_fail h2 (by omega)]
  norm_num
  exact pull_channel_loop_done

/-- C6: Backfill folds the three-attempt retry loop over exactly the active
channels; a channel whose fetch fails on every attempt makes 3 attempts with
two fixed 5-second sleeps, leaves the catalog unchanged and logs nothing; a
channel whose fetch first succeeds at attempt `a` slept 5 seconds before each
retry, ingests the fetched history and reports the per-channel count; and a
channel that fails all attempts does not abort the loop — the remaining
channels are processed from the unchanged catalog. -/
theorem pull_all_channel_media_spec :
    (∀ (env : PullEnv) (chans : List Channel) (db : List MediaFile) (now : Nat),
        env.connected = true →
        pull_all_channel_media env chans db now
          = pull_all_go env now (chans.filter (fun c => c.active)) db [] [])
    ∧ (∀ (env : PullEnv) (chUser : String) (now : Nat) (db : List MediaFile),
        (∀ a, a < 3 → ∃ e, env.fetch chUser a = .error e) →
        pull_channel_loop env chUser now db 0 3 [] = (db, 3, [5, 5], none))
    ∧ (∀ (env : PullEnv) (chUser : String) (now : Nat) (db : List MediaFile)
        (a : Nat) (msgs : List TgMessage),
        a < 3 → (∀ j, j < a → ∃ e, env.fetch chUser j = .error e) →
        env.fetch chUser a = .ok msgs →
        pull_channel_loop env chUser now db 0 3 []
          = ((ingest_messages db chUser msgs now).1, a, List.replicate a 5,
              some (ingest_messages db chUser msgs now).2))
    ∧ (∀ (env : PullEnv) (now : Nat) (ch : Channel) (rest : List Channel)
        (db : List MediaFile) (logs : List (String × Nat)) (sleeps : List Nat),
        (∀ a, a < 3 → ∃ e, env.fetch ch.username a = .error e) →
        pull_all_go env now (ch :: rest) db logs sleeps
          = pull_all_go env now rest db logs (sleeps ++ [5, 5])) := by
  refine ⟨?_, ?_, ?_, ?_⟩
  · intro env chans db now h
    simp [pull_all_channel_media, crud.get_all_channels, h]
  · intro env chUser now db hf
    exact pull_channel_loop_all_fail hf
  · intro env chUser now db a msgs ha hprev hok
    interval_cases a
    · exact pull_channel_loop_step_ok hok (by omega)
    · obtain ⟨e0, h0⟩ := hprev 0 (by omega)
      rw [pull_channel_loop_step_fail h0 (by omega)]
      norm_num
      rw [pull_channel_loop_step_ok hok (by omega)]
    · obtain ⟨e0, h0⟩ := hprev 0 (by omega)
      obtain ⟨e1, h1⟩ := hprev 1 (by omega)
      rw [pull_channel_loop_step_fail h0 (by omega)]
      norm_num
      rw [pull_channel_loop_step_fail h1 (by omega)]
      norm_num
      rw [pull_channel_loop_step_ok hok (by omega)]
      rfl
  · intro env now ch rest db logs sleeps hf
    simp only [pull_all_go]
    rw [pull_channel_loop_all_fail hf]

/-- Witness for C6: alpha exhausts its three attempts with two sleeps and no
catalog change, beta succeeds at the second attempt after one sleep, and the
fold runs over the two active channels only. -/
theorem pull_all_channel_media_spec_witness :
    pull_all_channel_media pullEnvX chansX [] 7
        = pull_all_go pullEnvX 7 (chansX.filter (fun c => c.active)) [] [] []
      ∧ pull_channel_loop pullEnvX "alpha" 7 [] 0 3 [] = ([], 3, [5, 5], none)
      ∧ pull_channel_loop pullEnvX "beta" 7 [] 0 3 []
          = ((ingest_messages [] "beta" [msgY] 7).1, 1, List.replicate 1 5,
              some (ingest_messages [] "beta" [msgY] 7).2) := by
  refine ⟨?_, ?_, ?_⟩
  · exact pull_all_channel_media_spec.1 pullEnvX chansX [] 7 rfl
  · exact pull_all_channel_media_spec.2.1 pullEnvX "alpha" 7 []
      (fun a _ => ⟨"net", rfl⟩)
  · exact pull_all_channel_media_spec.2.2.1 pullEnvX "beta" 7 [] 1 [msgY] (by omega)
      (fun j hj => by interval_cases j; exact ⟨"net", rfl⟩) rfl

lemma preserves_approval_refl {db : List MediaFile} : preserves_approval db db :=
  fun m hm hap => ⟨m, hm, rfl, hap, id⟩

lemma preserves_approval_trans {a b c : List MediaFile}
    (hab : preserves_approval a b) (hbc : preserves_approval b c) : preserves_approval a c := by
  intro m hm hap
  obtain ⟨m2, hm2, hid2, hap2, hk2⟩ := hab m hm hap
  obtain ⟨m3, hm3, hid3, hap3, hk3⟩ := hbc m2 hm2 hap2
  exact ⟨m3, hm3, hid3.trans hid2, hap3, fun hk => hk3 (hk2 hk)⟩

lemma preserves_approval_append {db l : List MediaFile} : preserves_approval db (db ++ l) :=
  fun m hm hap => ⟨m, List.mem_append_left l hm, rfl, hap, id⟩

lemma preserves_approval_update {db : List MediaFile} {i : Nat} {f : MediaFile → MediaFile}
    (hfi : ∀ m, (f m).id = m.id)
    (hfa : ∀ m, m.approved = true → (f m).approved = true)
    (hfk : ∀ m, m.s3_key.isSome → (f m).s3_key.isSome) :
    preserves_approval db (update_by_id db i f) := by
  intro m hm hap
  refine ⟨(fun m => if m.id == i then f m else m) m, List.mem_map_of_mem _ hm, ?_, ?_, ?_⟩
  · by_cases h : m.id = i <;> simp [h, hfi]
  · by_cases h : m.id = i <;> simp [h, hfa m hap, hap]
  · by_cases h : m.id = i <;> intro hk <;> simp [h, hap, hfk m hk, hk]

lemma preserves_handler {db : List MediaFile} {ch : TgChannel} {msg : TgMessage} {now : Nat} :
    preserves_approval db (handler db ch msg now) := by
  unfold handler
  split
  · exact preserves_approval_refl
  · split
    · exact preserves_approval_refl
    · split
      · exact preserves_approval_refl
      · exact preserves_approval_append

lemma preserves_backfill {db : List MediaFile} {chUser : String} {msg : TgMessage} {now : Nat} :
    preserves_approval db (backfill_ingest db chUser msg now).1 := by
  unfold backfill_ingest
  split
  · exact preserves_approval_refl
  · split
    · exact preserves_approval_refl
    · split
      · exact preserves_approval_refl
      · exact preserves_approval_append

lemma preserves_ingest_messages {chUser : String} {now : Nat} :
    ∀ (msgs : List TgMessage) (db : List MediaFile),
      preserves_approval db (ingest_messages db chUser msgs now).1 := by
  have hgen : ∀ (msgs : List TgMessage) (acc : List MediaFile × Nat),
      preserves_approval acc.1
        (msgs.foldl
          (fun acc msg =>
            let r := backfill_ingest acc.1 chUser msg now
            (r.1, if r.2 then acc.2 + 1 else acc.2))
          acc).1 := by
    intro msgs
    induction msgs with
    | nil => intro acc; exact preserves_approval_refl
    | cons msg rest ih =>
      intro acc
      simp only [List.foldl_cons]
      refine preserves_approval_trans ?_ (ih _)
      exact preserves_backfill
  intro msgs db
  exact hgen msgs (db, 0)

lemma preserves_pull_channel_loop {env : PullEnv} {u : String} {now : Nat} :
    ∀ (fuel rc mr : Nat) (sleeps : List Nat) (db : List MediaFile), mr - rc ≤ fuel →
      preserves_approval db (pull_channel_loop env u now db rc mr sleeps).1 := by
  intro fuel
  induction fuel with
  | zero =>
    intro rc mr sleeps db h
    rw [pull_channel_loop]
    have hnl : ¬ rc < mr := by omega
    simp only [hnl, if_false]
    exact preserves_approval_refl
  | succ n ih =>
    intro rc mr sleeps db h
    rw [pull_channel_loop]
    split
    · rename_i hlt
      split
      · exact preserves_ingest_messages _ _
      · exact ih _ _ _ _ (by omega)
    · exact preserves_approval_refl

lemma preserves_pull_all_go {env : PullEnv} {now : Nat} :
    ∀ (chans : List Channel) (db : List MediaFile) (logs : List (String × Nat))
      (sleeps : List Nat),
      preserves_approval db (pull_all_go env now chans db logs sleeps).1 := by
  intro chans
  induction chans with
  | nil => intro db logs sleeps; exact preserves_approval_refl
  | cons ch rest ih =>
    intro db logs sleeps
    simp only [pull_all_go]
    split <;>
      exact preserves_approval_trans
        (preserves_pull_channel_loop 3 0 3 [] db (by omega)) (ih _ _ _)

lemma preserves_api_approve {env : TgEnv} {db : List MediaFile} {mid now : Nat} :
    preserves_approval db (api.approve_media env db mid now).2 := by
  unfold api.approve_media
  split
  · exact preserves_approval_refl
  · split
    · exact preserves_approval_refl
    · apply preserves_approval_update
      · exact fun m => rfl
      · exact fun m _ => rfl
      · exact fun m _ => rfl

lemma preserves_batch_go {env : TgEnv} {now : Nat} :
    ∀ (ids : List Nat) (db : List MediaFile) (succ : List BatchSuccess)
      (fail : List BatchFailure),
      preserves_approval db (api.batch_go env now ids db succ fail).1 := by
  intro ids
  induction ids with
  | nil => intro db succ fail; exact preserves_approval_refl
  | cons mid rest ih =>
    intro db succ fail
    simp only [api.batch_go]
    split
    · exact ih _ _ _
    · split
      · exact ih _ _ _
      · split
        · exact ih _ _ _
        · refine preserves_approval_trans ?_ (ih _ _ _)
          apply preserves_approval_update
          · exact fun m => rfl
          · exact fun m _ => rfl
          · exact fun m _ => rfl

lemma preserves_batch_approve {env : TgEnv} {db : List MediaFile} {ids : List Nat} {now : Nat} :
    preserves_approval db (api.batch_approve_media env db ids now).2 := by
  unfold api.batch_approve_media
  split
  · exact preserves_approval_refl
  · split
    · exact preserves_approval_refl
    · split
      rename_i db2 succ fail heq
      have hb : preserves_approval db (api.batch_go env now ids db [] []).1 :=
        preserves_batch_go ids db [] []
      rw [heq] at hb
      exact hb

lemma preserves_crud_approve {db : List MediaFile} {mid : Nat} :
    preserves_approval db (crud.approve_media db mid).2 := by
  unfold crud.approve_media
  split
  · exact preserves_approval_refl
  · apply preserves_approval_update
    · exact fun m => rfl
    · exact fun m _ => rfl
    · exact fun m hk => hk

/-- C10: No operation reverts Approved to Discovered: live ingestion,
backfill ingestion (single message or the whole pull), single approve, batch
approve, and the crud approve each keep every approved row approved, under
its id, with a storage key whenever it had one; the channel endpoints never
touch the media catalog at all.  The read-only listing endpoints are pure
functions of the catalog and return no catalog. -/
theorem approved_never_reverts :
    (∀ (db : List MediaFile) (ch : TgChannel) (msg : TgMessage) (now : Nat),
        preserves_approval db (handler db ch msg now))
    ∧ (∀ (db : List MediaFile) (chUser : String) (msg : TgMessage) (now : Nat),
        preserves_approval db (backfill_ingest db chUser msg now).1)
    ∧ (∀ (env : PullEnv) (chans : List Channel) (db : List MediaFile) (now : Nat),
        preserves_approval db (pull_all_channel_media env chans db now).1)
    ∧ (∀ (env : TgEnv) (db : List MediaFile) (mid now : Nat),
        preserves_approval db (api.approve_media env db mid now).2)
    ∧ (∀ (env : TgEnv) (db : List MediaFile) (ids : List Nat) (now : Nat),
        preserves_approval db (api.batch_approve_media env db ids now).2)
    ∧ (∀ (db : List MediaFile) (mid : Nat),
        preserves_approval db (crud.approve_media db mid).2)
    ∧ (∀ (st : AppState) (cid : Nat), (api.delete_channel st cid).2.media = st.media)
    ∧ (∀ (st : AppState) (cid : Nat) (b : Bool),
        (api.toggle_channel st cid b).2.media = st.media) := by
  refine ⟨?_, ?_, ?_, ?_, ?_, ?_, ?_, ?_⟩
  · intro db ch msg now
    exact preserves_handler
  · intro db chUser msg now
    exact preserves_backfill
  · intro env chans db now
    unfold pull_all_channel_media
    split
    · exact preserves_approval_refl
    · exact preserves_pull_all_go _ _ _ _
  · intro env db mid now
    exact preserves_api_approve
  · intro env db ids now
    exact preserves_batch_approve
  · intro db mid
    exact preserves_crud_approve
  · intro st cid
    unfold api.delete_channel
    split <;> rfl
  · intro st cid b
    unfold api.toggle_channel
    split <;> rfl

/-- Witness for C10: after a successful single approve on the mixed catalog,
the already approved row 2 is still present, still approved, and still has a
storage key. -/
theorem approved_never_reverts_witness :
    ∃ m2 ∈ (api.approve_media env_ok dbMix 1 7).2,
      m2.id = mApproved.id ∧ m2.approved = true
        ∧ (mApproved.s3_key.isSome → m2.s3_key.isSome) :=
  approved_never_reverts.2.2.2.1 env_ok dbMix 1 7 mApproved (by simp [dbMix]) rfl
